import Mathlib

/-!
Verification of the session and credential-lifecycle core of the
Projeto-ProTech repository, against its natural-language specification.

The development shallowly embeds the JavaScript source:

* `AuthService` (src/unnamed/part_006, the consolidated auth service):
  its storage footprint is three session slots (`sessionStorage[sessionKey]`,
  `localStorage[sessionKey]`, `localStorage[sessionKey ++ "_remember"]`)
  plus the registered-user list (`localStorage[userKey]`).  The service only
  ever stores JSON serializations of plain session records under the session
  keys, and `JSON.parse ∘ JSON.stringify` is the identity on those records,
  so the embedding keeps the parsed records themselves in the state.
* JavaScript class semantics: `AuthService` defines `logout` and
  `isAuthenticated` twice in one class body (part_006 lines 323/377 and
  316/382).  In JavaScript the later definition wins, so the embedding's
  `logout` / `isAuthenticated` / `getSession` are the later definitions
  (lines 377-397); the earlier, shadowed (dead) definitions are kept as
  `logoutShadowed` / `isAuthenticatedShadowed` because the spec was written
  from them.
* `CryptoUtils` (src/unnamed/part_004 = part_005): a byte-faithful model of
  `btoa`/`atob` (RFC 4648 base64 as implemented by browsers, forgiving
  decode), string reversal scrambling, `split(':')` and JS `parseInt`.
* `UserSessionManager._isSessionValid` (src/js/core/session.manager.js).
* `Router.checkAuth` and the `/admin.html` `beforeEnter` hook
  (src/js/ui/darkmode.js).

All times are explicit parameters (milliseconds since the epoch, as
`Date.now()` returns).
-/

/-! ## Validation (src/js/core/validation.js)

`Validation.RULES.email.test` is the regex `^[^\s@]+@[^\s@]+\.[^\s@]+$`.
A string matches iff it decomposes as `a ++ "@" ++ x ++ "." ++ y` with
`a`, `x`, `y` nonempty and free of whitespace and `@` (dots are allowed in
all three chunks, so `x` may itself contain dots).  The model decides this
by enumerating the decompositions.  (JS `\s` also covers exotic Unicode
spaces; `Char.isWhitespace` covers the ASCII ones, which is faithful on
every input evaluated here.) -/

/-- A character admissible inside the regex character class `[^\s@]`. -/
def emailChunkChar (c : Char) : Bool := !c.isWhitespace && c != '@'

/-- A nonempty run of `[^\s@]` characters, i.e. a match of `[^\s@]+`. -/
def emailChunkOk (cs : List Char) : Bool := !cs.isEmpty && cs.all emailChunkChar

/-- All decompositions `(pre, suf)` of a list with `pre ++ suf = cs`. -/
def listSplits : List Char → List (List Char × List Char)
  | [] => [([], [])]
  | c :: cs => ([], c :: cs) :: (listSplits cs).map (fun p => (c :: p.1, p.2))

/-- Match of the suffix regex `[^\s@]+\.[^\s@]+$` against a character list. -/
def emailDomainOk (b : List Char) : Bool :=
  (listSplits b).any (fun p =>
    emailChunkOk p.1 &&
      match p.2 with
      | '.' :: y => emailChunkOk y
      | _ => false)

/-- `Validation.validate(value, 'email')`: the anchored regex
`^[^\s@]+@[^\s@]+\.[^\s@]+$` applied to the whole string. -/
def emailRegexTest (s : String) : Bool :=
  (listSplits s.data).any (fun p =>
    emailChunkOk p.1 &&
      match p.2 with
      | '@' :: b => emailDomainOk b
      | _ => false)

/-! ## AuthService data model (src/unnamed/part_006) -/

/-- A registered user record as stored under `localStorage['usuariosRegistrados']`,
e.g. `id: 1, email: 'admin@promptpro.com', senha: 'admin123', role: 'admin'`. -/
structure Usuario where
  id : Nat
  email : String
  senha : String
  role : String
deriving DecidableEq, Repr

/-- The session record built by `realizarLogin`:
`sessionData = { ...usuario, loginTime: Date.now(), sessionId: this.gerarSessionId() }`. -/
structure SessionData where
  id : Nat
  email : String
  senha : String
  role : String
  loginTime : Nat
  sessionId : String
deriving DecidableEq, Repr

/-- The observable state of the single `AuthService` instance together with the
storage slots it touches.  `sessionKey = 'ferramenta_protech_session'`,
`userKey = 'usuariosRegistrados'`.
* `sessionStore`  models `sessionStorage[sessionKey]` (ephemeral tier),
* `localSession`  models `localStorage[sessionKey]` (durable tier; written
  only by `setSession`, removed by the effective `logout`),
* `localRemember` models `localStorage[sessionKey ++ "_remember"]` (durable),
* `usuarios`      models the parsed `localStorage[userKey]` user list. -/
structure AuthState where
  tentativasLogin : Nat
  maxTentativas : Nat
  sessionStore : Option SessionData
  localSession : Option SessionData
  localRemember : Option SessionData
  usuarios : List Usuario
deriving DecidableEq, Repr

/-- The outcome of `processarLogin` as seen by the caller: the success result
object, or the message of the `Error` thrown. -/
inductive LoginResult where
  | success (usuario : Usuario)
  | contaBloqueada
  | emailInvalido
  | credenciaisInvalidas
deriving DecidableEq, Repr

/-- The default demonstration users seeded by `inicializarUsuariosPadrao`. -/
def usuariosPadrao : List Usuario :=
  [ { id := 1, email := "admin@promptpro.com", senha := "admin123", role := "admin" },
    { id := 2, email := "demo@promptpro.com", senha := "demo123", role := "user" } ]

/-- A fresh `AuthService` instance (constructor: `maxTentativas = 3`,
`tentativasLogin = 0`) over empty session storage with the given user list. -/
def freshState (usuarios : List Usuario) : AuthState :=
  { tentativasLogin := 0, maxTentativas := 3, sessionStore := none,
    localSession := none, localRemember := none, usuarios := usuarios }

/-- `validarCredenciais(email, senha)`:
`usuarios.find(u => u.email === email && u.senha === senha)`. -/
def validarCredenciais (usuarios : List Usuario) (email senha : String) : Option Usuario :=
  usuarios.find? (fun u => u.email == email && u.senha == senha)

/-- `realizarLogin(usuario, lembrar)`: builds `sessionData`, writes it to
`sessionStorage[sessionKey]` always, and to `localStorage[sessionKey + '_remember']`
iff `lembrar`.  (`dispatchAuthEvent` has no storage effect.)  The session id
and clock are explicit parameters. -/
def realizarLogin (st : AuthState) (usuario : Usuario) (lembrar : Bool)
    (now : Nat) (sid : String) : AuthState :=
  let sessionData : SessionData :=
    { id := usuario.id, email := usuario.email, senha := usuario.senha,
      role := usuario.role, loginTime := now, sessionId := sid }
  { st with sessionStore := some sessionData,
            localRemember := if lembrar then some sessionData else st.localRemember }

/-- `processarLogin(email, senha, lembrar)` (part_006 lines 182-227):
1. if `tentativasLogin >= maxTentativas` throw `'Conta bloqueada'`;
2. else if `!Validation.validate(email, 'email')` throw `'Email inválido'`;
3. else look up credentials; on miss increment `tentativasLogin` and throw
   `'Credenciais inválidas'`; on hit reset the counter to 0, run
   `realizarLogin`, and return the success result. -/
def processarLogin (st : AuthState) (email senha : String) (lembrar : Bool)
    (now : Nat) (sid : String) : AuthState × LoginResult :=
  if st.tentativasLogin ≥ st.maxTentativas then (st, .contaBloqueada)
  else if !(emailRegexTest email) then (st, .emailInvalido)
  else
    match validarCredenciais st.usuarios email senha with
    | none => ({ st with tentativasLogin := st.tentativasLogin + 1 }, .credenciaisInvalidas)
    | some u => (realizarLogin { st with tentativasLogin := 0 } u lembrar now sid, .success u)

/-- `getCurrentUser()`: reads `sessionStorage[sessionKey]`; if absent, falls
back to `localStorage[sessionKey + '_remember']` and, when found there,
re-hydrates `sessionStorage[sessionKey]` (a storage write).  Returns the new
state and the parsed record (or `none`). -/
def getCurrentUser (st : AuthState) : AuthState × Option SessionData :=
  match st.sessionStore with
  | some sd => (st, some sd)
  | none =>
    match st.localRemember with
    | some sd => ({ st with sessionStore := some sd }, some sd)
    | none => (st, none)

/-- `verificarLogin()`: `!!this.getCurrentUser()`. -/
def verificarLogin (st : AuthState) : AuthState × Bool :=
  let r := getCurrentUser st
  (r.1, r.2.isSome)

/-- `getSession()` (effective, last class-body definition, lines 387-393):
`JSON.parse(localStorage.getItem(this.sessionKey))`.  `getItem` of an absent
key is `null` and `JSON.parse(null)` is `null`, so absence yields `none`. -/
def getSession (st : AuthState) : Option SessionData := st.localSession

/-- `isAuthenticated()` (effective, last class-body definition, lines 382-385):
`const session = this.getSession(); return session && session.email;` — the
JS value returned is `session.email` when `session` is truthy, so the call is
truthy iff a record is present under `localStorage[sessionKey]` with a
nonempty `email`. -/
def isAuthenticated (st : AuthState) : Bool :=
  match getSession st with
  | some sd => sd.email != ""
  | none => false

/-- `logout()` (effective, last class-body definition, lines 377-380):
`localStorage.removeItem(this.sessionKey); window.location.href = '/login.html';`
— it removes only the durable-tier session key and returns `undefined`. -/
def logout (st : AuthState) : AuthState := { st with localSession := none }

/-- `setSession(data)`: `localStorage.setItem(this.sessionKey, JSON.stringify(data))`
— the sole writer of the durable-tier session key. -/
def setSession (st : AuthState) (data : SessionData) : AuthState :=
  { st with localSession := some data }

/-- The earlier, shadowed `logout` (lines 323-345, dead code under JS
last-definition-wins): removes `sessionStorage[sessionKey]` and
`localStorage[sessionKey + '_remember']` and returns `{ success: true, ... }`. -/
def logoutShadowed (st : AuthState) : AuthState × Bool :=
  ({ st with sessionStore := none, localRemember := none }, true)

/-- The earlier, shadowed `isAuthenticated` (lines 316-318, dead code):
`return this.verificarLogin();`. -/
def isAuthenticatedShadowed (st : AuthState) : AuthState × Bool :=
  verificarLogin st

/-- A simulated process restart: the ephemeral tier (`sessionStorage`) is
cleared, the durable tier (`localStorage`: the session key, the remember key
and the registered-user list) survives, and a fresh `AuthService` instance is
constructed. -/
def restart (st : AuthState) : AuthState :=
  { freshState st.usuarios with
      localSession := st.localSession, localRemember := st.localRemember }

/-! ## Router (src/js/ui/darkmode.js) -/

/-- The per-route flags consulted by `Router.checkAuth`. -/
structure Route where
  requireAuth : Bool
  redirectIfAuth : Bool
deriving DecidableEq, Repr

/-- `Router.checkAuth(route)` (darkmode.js lines 600-617): reads
`AuthService?.isAuthenticated() || false` (the effective `isAuthenticated`);
returns `false` (navigation denied/redirected) when the route requires auth
and the user is not authenticated, or when the route has `redirectIfAuth`
and the user is authenticated; `true` otherwise.  Its body performs no
storage writes (navigation touches `window.location`, not the storage
tiers), so it is a pure function of the state. -/
def checkAuth (route : Route) (st : AuthState) : Bool :=
  let isAuth := isAuthenticated st
  if route.requireAuth && !isAuth then false
  else if route.redirectIfAuth && isAuth then false
  else true

/-- The `/admin.html` route's `beforeEnter` hook (darkmode.js lines 863-870):
`const user = AuthService?.getCurrentUser(); if (user?.role !== 'admin') return false; return true;`
— note it calls `getCurrentUser`, which can write the ephemeral tier. -/
def adminBeforeEnter (st : AuthState) : AuthState × Bool :=
  let r := getCurrentUser st
  match r.2 with
  | some u => (r.1, u.role == "admin")
  | none => (r.1, false)

/-! ## Base64 (`btoa` / `atob`)

`window.btoa` maps a string of code points ≤ 255 to its RFC 4648 base64
encoding (throwing — here `none` — on larger code points); `window.atob`
implements the WHATWG forgiving-base64 decode: strip ASCII whitespace, strip
up to two trailing `=` when the length is a multiple of four, fail on
length ≡ 1 (mod 4) or on characters outside the alphabet, then decode,
discarding the excess bits of a trailing 2- or 3-character chunk. -/

/-- The base64 alphabet. -/
def b64Alphabet : List Char :=
  "ABCDEFGHIJKLMNOPQRSTUVWXYZabcdefghijklmnopqrstuvwxyz0123456789+/".data

/-- The alphabet character for a 6-bit value (values are always < 64). -/
def b64Char (n : Nat) : Char := b64Alphabet.getD n 'A'

/-- Index of a character in the base64 alphabet, `none` if absent. -/
def b64Val (c : Char) : Option Nat :=
  if c = 'A' then some 0 else
  match b64Alphabet.findIdx? (· = c) with
  | some i => some i
  | none => none

/-- Encode a byte list (values < 256) into base64 characters with padding. -/
def b64Encode : List Nat → List Char
  | [] => []
  | [b0] =>
      [b64Char (b0 / 4), b64Char (b0 % 4 * 16), '=', '=']
  | [b0, b1] =>
      [b64Char (b0 / 4), b64Char (b0 % 4 * 16 + b1 / 16), b64Char (b1 % 16 * 4), '=']
  | b0 :: b1 :: b2 :: rest =>
      b64Char (b0 / 4) :: b64Char (b0 % 4 * 16 + b1 / 16) ::
        b64Char (b1 % 16 * 4 + b2 / 64) :: b64Char (b2 % 64) :: b64Encode rest

/-- Decode a list of 6-bit values into bytes, discarding excess bits of a
trailing chunk of two or three values (forgiving-base64). -/
def b64DecodeVals : List Nat → List Nat
  | v0 :: v1 :: v2 :: v3 :: rest =>
      (v0 * 4 + v1 / 16) :: (v1 % 16 * 16 + v2 / 4) :: (v2 % 4 * 64 + v3) ::
        b64DecodeVals rest
  | [v0, v1] => [v0 * 4 + v1 / 16]
  | [v0, v1, v2] => [v0 * 4 + v1 / 16, v1 % 16 * 16 + v2 / 4]
  | _ => []

/-- ASCII whitespace as stripped by forgiving-base64 decode. -/
def asciiWs (c : Char) : Bool :=
  c = ' ' || c = '\t' || c = '\n' || c = '\x0b' || c = '\x0c' || c = '\r'

/-- Traverse characters to 6-bit values; `none` if any is outside the alphabet. -/
def b64Vals : List Char → Option (List Nat)
  | [] => some []
  | c :: cs =>
    match b64Val c, b64Vals cs with
    | some v, some vs => some (v :: vs)
    | _, _ => none

/-- `window.btoa`: `none` models the `InvalidCharacterError` thrown on code
points above 255. -/
def btoa (s : String) : Option String :=
  if s.data.all (fun c => c.toNat < 256) then
    some ⟨b64Encode (s.data.map Char.toNat)⟩
  else none

/-- `window.atob` (forgiving-base64 decode); `none` models the thrown
`InvalidCharacterError`. -/
def atob (s : String) : Option String :=
  let cs := s.data.filter (fun c => !asciiWs c)
  let cs :=
    if cs.length % 4 = 0 then
      if cs.drop (cs.length - 2) = ['=', '='] then cs.dropLast.dropLast
      else if cs.drop (cs.length - 1) = ['='] then cs.dropLast
      else cs
    else cs
  if cs.length % 4 = 1 then none
  else
    match b64Vals cs with
    | some vs => some ⟨(b64DecodeVals vs).map Char.ofNat⟩
    | none => none

/-! ## CryptoUtils (src/unnamed/part_004, identical copy in part_005) -/

/-- `#chaveBase`, the fixed integrity marker appended before the outer
base64 layer. -/
def chaveBase : String := "UtilityPro2025"

/-- JS `String.prototype.endsWith(suffix)` (computable suffix test). -/
def strEndsWith (s suffix : String) : Bool :=
  s.data.drop (s.data.length - suffix.data.length) == suffix.data

/-- 30 days in milliseconds: the fixed maximum token age. -/
def trintaDias : Int := 30 * 24 * 60 * 60 * 1000

/-- `#embaralhar` / `#desembaralhar`: string reversal (its own inverse). -/
def embaralhar (s : String) : String := ⟨s.data.reverse⟩

/-- JS `String.prototype.split(sep)` on a single-character separator:
splits at every occurrence; always returns a nonempty list. -/
def splitOnChar (sep : Char) : List Char → List (List Char)
  | [] => [[]]
  | c :: cs =>
    let r := splitOnChar sep cs
    if c = sep then [] :: r
    else
      match r with
      | [] => [[c]]
      | h :: t => (c :: h) :: t

/-- JS `parseInt(s)` restricted to base-10 inputs: skip leading ASCII
whitespace, read an optional sign, then the longest leading digit run;
`none` models `NaN` (no digits).  (The `0x` hex prefix of `parseInt` is not
modelled; no input evaluated here has one.) -/
def parseIntJS (s : String) : Option Int :=
  let cs := s.data.dropWhile asciiWs
  let (neg, cs) :=
    match cs with
    | '-' :: rest => (true, rest)
    | '+' :: rest => (false, rest)
    | rest => (false, rest)
  let digits := cs.takeWhile Char.isDigit
  if digits.isEmpty then none
  else
    let n : Nat := digits.foldl (fun acc c => acc * 10 + (c.toNat - 48)) 0
    some (if neg then -(n : Int) else (n : Int))

/-- The value returned by `descriptografar`: a successfully decoded string,
`null` (every caught exception returns `null`), or `undefined` (the
destructured `dados` when the inner payload contains no `':'`). -/
inductive DecodeResult where
  | str (s : String)
  | nullv
  | undef
deriving DecidableEq, Repr

/-- `CryptoUtils.criptografar(dados)` on a string input (object inputs are
first `JSON.stringify`ed to a string): build
`payload = Date.now().toString() + ':' + dados`, apply `btoa`, append
`chaveBase`, apply `btoa` again, and reverse.  `none` models the `null`
returned when `btoa` throws. -/
def criptografar (dados : String) (now : Nat) : Option String :=
  match btoa (toString now ++ ":" ++ dados) with
  | none => none
  | some r1 =>
    match btoa (r1 ++ chaveBase) with
    | none => none
    | some r2 => some (embaralhar r2)

/-- `CryptoUtils.descriptografar(dadosCriptografados)` (part_004 lines
67-103): reverse, `atob`, check the `chaveBase` suffix (else `null`), strip
it, `atob` again, `split(':')` and destructure into `timestamp` and `dados`
(so `dados` is only the second `':'`-separated field, or `undefined` when
there is none), then throw (→ `null`) iff `now - parseInt(timestamp)` — a
comparison that is `false` whenever `parseInt` yields `NaN` — exceeds 30
days; otherwise return `dados`. -/
def descriptografar (token : String) (now : Nat) : DecodeResult :=
  match atob (embaralhar token) with
  | none => .nullv
  | some r1 =>
    if !(strEndsWith r1 chaveBase) then .nullv
    else
      let r2 : String := ⟨r1.data.take (r1.data.length - chaveBase.data.length)⟩
      match atob r2 with
      | none => .nullv
      | some r3 =>
        let parts := splitOnChar ':' r3.data
        let timestamp : String := ⟨parts.headI⟩
        let dados : DecodeResult :=
          match parts.get? 1 with
          | some d => .str ⟨d⟩
          | none => .undef
        match parseIntJS timestamp with
        | none => dados
        | some t => if (now : Int) - t > trintaDias then .nullv else dados

/-! ## UserSessionManager (src/js/core/session.manager.js) -/

/-- `UserSessionManager.CONFIG.SESSION.TIMEOUT`: 24 hours in milliseconds. -/
def sessionTimeout : Int := 24 * 60 * 60 * 1000

/-- The fields of a stored user-session record that `_isSessionValid` and the
spec's `isValid` contract read.  The ISO timestamp strings are modelled by
their epoch-millisecond values; `none` stands for a missing or empty field
(the `!userData.loginTime` guard; an unparseable-but-truthy date string also
yields an invalid session, since `NaN < TIMEOUT` is `false` in JS, so
collapsing it into `none` preserves the function's value). -/
structure SMUserData where
  loginTime : Option Int
  lastActivity : Option Int
deriving DecidableEq, Repr

/-- `UserSessionManager._isSessionValid(userData)` (session.manager.js lines
415-425): `false` if the record is absent or has no `loginTime`; otherwise
`sessionAge = now - loginTime` and the result is
`sessionAge < CONFIG.SESSION.TIMEOUT`. -/
def isSessionValid (userData : Option SMUserData) (now : Int) : Bool :=
  match userData with
  | none => false
  | some u =>
    match u.loginTime with
    | none => false
    | some lt => now - lt < sessionTimeout

/-- Modelled from the spec: the spec's `isValid(record)` contract reads
"true iff record exists and `now - lastActivityAt < sessionTimeout`" — stated
here verbatim for comparison with the source's `isSessionValid`, which uses
`loginTime` instead. -/
def isSessionValidSpec (userData : Option SMUserData) (now : Int) : Bool :=
  match userData with
  | none => false
  | some u =>
    match u.lastActivity with
    | none => false
    | some la => now - la < sessionTimeout

/-! ## Helper lemmas about `processarLogin` -/

/-- `processarLogin` never writes `localStorage[sessionKey]` (that slot's
only writer is `setSession`), never changes the configured `maxTentativas`,
and never changes the registered-user list. -/
theorem processarLogin_preserves (st : AuthState) (e p : String) (l : Bool)
    (t : Nat) (d : String) :
    (processarLogin st e p l t d).1.localSession = st.localSession ∧
    (processarLogin st e p l t d).1.maxTentativas = st.maxTentativas ∧
    (processarLogin st e p l t d).1.usuarios = st.usuarios := by
  unfold processarLogin
  split
  · exact ⟨rfl, rfl, rfl⟩
  · split
    · exact ⟨rfl, rfl, rfl⟩
    · split <;> simp [realizarLogin]

/-- Exhaustive case analysis of a `processarLogin` call: it is rejected with
`contaBloqueada` (counter saturated, state untouched), rejected with
`emailInvalido` (format check failed, state untouched), rejected with
`credenciaisInvalidas` (counter incremented, nothing else changed), or
succeeds (counter reset to 0, then `realizarLogin`). -/
theorem processarLogin_cases (st : AuthState) (e p : String) (l : Bool)
    (t : Nat) (d : String) :
    (st.tentativasLogin ≥ st.maxTentativas ∧
       processarLogin st e p l t d = (st, .contaBloqueada)) ∨
    (st.tentativasLogin < st.maxTentativas ∧ emailRegexTest e = false ∧
       processarLogin st e p l t d = (st, .emailInvalido)) ∨
    (st.tentativasLogin < st.maxTentativas ∧ emailRegexTest e = true ∧
       validarCredenciais st.usuarios e p = none ∧
       processarLogin st e p l t d =
         ({ st with tentativasLogin := st.tentativasLogin + 1 }, .credenciaisInvalidas)) ∨
    (∃ u, st.tentativasLogin < st.maxTentativas ∧ emailRegexTest e = true ∧
       validarCredenciais st.usuarios e p = some u ∧
       processarLogin st e p l t d =
         (realizarLogin { st with tentativasLogin := 0 } u l t d, .success u)) := by
  by_cases hb : st.tentativasLogin ≥ st.maxTentativas
  · exact Or.inl ⟨hb, by unfold processarLogin; rw [if_pos hb]⟩
  · have hlt : st.tentativasLogin < st.maxTentativas := Nat.lt_of_not_le hb
    by_cases hf : emailRegexTest e
    · cases hcred : validarCredenciais st.usuarios e p with
      | none =>
        refine Or.inr (Or.inr (Or.inl ⟨hlt, hf, ?_, ?_⟩))
        · rfl
        · unfold processarLogin
          simp [if_neg hb, hf, hcred]
      | some u =>
        refine Or.inr (Or.inr (Or.inr ⟨u, hlt, hf, ?_, ?_⟩))
        · rfl
        · unfold processarLogin
          simp [if_neg hb, hf, hcred]
    · refine Or.inr (Or.inl ⟨hlt, Bool.eq_false_iff.mpr hf, ?_⟩)
      unfold processarLogin
      simp [if_neg hb, hf]

/-- A `processarLogin` call made with a saturated counter is rejected with
`contaBloqueada` and leaves the state untouched. -/
theorem processarLogin_locked (st : AuthState) (e p : String) (l : Bool)
    (t : Nat) (d : String) (h : st.tentativasLogin ≥ st.maxTentativas) :
    processarLogin st e p l t d = (st, .contaBloqueada) := by
  unfold processarLogin
  rw [if_pos h]

/-- A call rejected with `credenciaisInvalidas` increments the attempt
counter by exactly one and changes nothing else; such a call can only happen
strictly below the maximum. -/
theorem processarLogin_cred_fail (st : AuthState) (e p : String) (l : Bool)
    (t : Nat) (d : String)
    (h : (processarLogin st e p l t d).2 = .credenciaisInvalidas) :
    (processarLogin st e p l t d).1 =
      { st with tentativasLogin := st.tentativasLogin + 1 } ∧
    st.tentativasLogin < st.maxTentativas := by
  rcases processarLogin_cases st e p l t d with ⟨_, hq⟩ | ⟨_, _, hq⟩ |
    ⟨hlt, _, _, hq⟩ | ⟨u, _, _, _, hq⟩ <;> rw [hq] at h ⊢ <;> simp_all

/-- A successful call resets the attempt counter to zero. -/
theorem processarLogin_success_counter (st : AuthState) (e p : String)
    (l : Bool) (t : Nat) (d : String) (u : Usuario)
    (h : (processarLogin st e p l t d).2 = .success u) :
    (processarLogin st e p l t d).1.tentativasLogin = 0 := by
  rcases processarLogin_cases st e p l t d with ⟨_, hq⟩ | ⟨_, _, hq⟩ |
    ⟨_, _, _, hq⟩ | ⟨v, _, _, _, hq⟩ <;> rw [hq] at h ⊢ <;>
    simp_all [realizarLogin]

/-- One `processarLogin` step keeps the counter within the maximum. -/
theorem processarLogin_counter_le (st : AuthState) (e p : String) (l : Bool)
    (t : Nat) (d : String) (h : st.tentativasLogin ≤ st.maxTentativas) :
    (processarLogin st e p l t d).1.tentativasLogin ≤ st.maxTentativas := by
  rcases processarLogin_cases st e p l t d with ⟨_, hq⟩ | ⟨_, _, hq⟩ |
    ⟨hlt, _, _, hq⟩ | ⟨u, _, _, _, hq⟩ <;> rw [hq] <;>
    simp_all [realizarLogin] <;> omega

/-! ## Scenario fixtures -/

/-- The principal of the spec's login scenario, seeded in the registered-user
store (`CredentialStore.find` is an external collaborator; the store contents
are a parameter of the model). -/
def uAB : Usuario := { id := 1, email := "a@b.com", senha := "right", role := "user" }

/-- The session record `realizarLogin` builds for `uAB` at time 1000 with
session id `"sess_1"`. -/
def sdAB : SessionData :=
  { id := 1, email := "a@b.com", senha := "right", role := "user",
    loginTime := 1000, sessionId := "sess_1" }

/-! ## The claims -/

/-- C1.  The claim follows the spec scenario: after a successful
`processarLogin("a@b.com", "right", true)`, `getCurrentUser()` returns the
principal's record; then `logout()` returns ok, a second `logout()` also
returns ok, and after either call `currentPrincipal()` is `None` and
`isAuthenticated()` is false.  The code violates the scenario: the class
defines `logout` twice and the later definition wins, so the effective
`logout` removes only `localStorage[sessionKey]` (never written by login),
returns `undefined` rather than an ok result object, and leaves the session
record in `sessionStorage`, so `getCurrentUser()` still returns the record
after logout.  The shadowed, documented `logout` (which the spec describes)
would have satisfied the scenario.  This theorem evaluates the code at the
failing input. -/
theorem c1_logout_divergence :
    -- successful login writes the session record
    (processarLogin (freshState [uAB]) "a@b.com" "right" true 1000 "sess_1").2 =
      .success uAB ∧
    ((processarLogin (freshState [uAB]) "a@b.com" "right" true 1000 "sess_1").1
      |> fun st1 =>
        -- currentPrincipal: the record with the principal's email and role
        (getCurrentUser st1).2 = some sdAB ∧
        -- divergence: after the effective logout the record is still there
        (getCurrentUser (logout st1)).2 = some sdAB ∧
        (getCurrentUser (logout st1)).2 ≠ none ∧
        -- the conjuncts of the claim that do hold
        isAuthenticated (logout st1) = false ∧
        isAuthenticated (logout (logout st1)) = false ∧
        -- the shadowed (dead) logout would have satisfied the scenario
        (logoutShadowed st1).2 = true ∧
        (getCurrentUser (logoutShadowed st1).1).2 = none) := by
  decide

/-- C2.  Immediately after any successful `processarLogin` — in any state in
which `setSession` has never run, i.e. `localStorage[sessionKey]` is empty,
which no login path ever writes — the effective `isAuthenticated()` (the
last of the two class-body definitions, reading `getSession()` from
`localStorage[sessionKey]`) returns a falsy value.  Confirmed: login only
writes `sessionStorage[sessionKey]` and `localStorage[sessionKey+'_remember']`. -/
theorem c2_isAuthenticated_falsy_after_login (st : AuthState)
    (e p : String) (l : Bool) (t : Nat) (d : String) (u : Usuario)
    (hset : st.localSession = none)
    (hsucc : (processarLogin st e p l t d).2 = .success u) :
    (processarLogin st e p l t d).1.localSession = none ∧
    isAuthenticated (processarLogin st e p l t d).1 = false := by
  have hpres := (processarLogin_preserves st e p l t d).1
  have h1 : (processarLogin st e p l t d).1.localSession = none := by
    rw [hpres, hset]
  exact ⟨h1, by simp [isAuthenticated, getSession, h1]⟩

/-- Witness for C2 at the spec scenario input. -/
theorem c2_witness :
    isAuthenticated
      (processarLogin (freshState [uAB]) "a@b.com" "right" true 1000 "sess_1").1 = false :=
  (c2_isAuthenticated_falsy_after_login (freshState [uAB]) "a@b.com" "right"
    true 1000 "sess_1" uAB rfl (by decide)).2

/-- C3.  The claim: `login` writes the encoded record to the ephemeral tier
always and to the durable tier iff `persist`; after a restart in which only
the durable tier survives, `isAuthenticated()` is false for `persist=false`
and true for `persist=true`.  The tier-write part holds, but the
`persist=true` consequence fails on the code: the effective
`isAuthenticated` reads `localStorage[sessionKey]`, which no login path
writes (the durable copy lives under `localStorage[sessionKey+'_remember']`),
so after a restart it returns false even though the remembered record
survived.  This theorem evaluates the code at the failing input. -/
theorem c3_persistence_divergence :
    ((processarLogin (freshState [uAB]) "a@b.com" "right" true 1000 "sess_1").1
      |> fun stT =>
      ((processarLogin (freshState [uAB]) "a@b.com" "right" false 1000 "sess_1").1
        |> fun stF =>
        -- ephemeral tier written always, durable remember slot iff persist
        stT.sessionStore = some sdAB ∧ stT.localRemember = some sdAB ∧
        stF.sessionStore = some sdAB ∧ stF.localRemember = none ∧
        -- persist=false + restart: not authenticated (as the claim says)
        isAuthenticated (restart stF) = false ∧
        -- divergence: persist=true + restart keeps the durable record ...
        (restart stT).localRemember = some sdAB ∧
        -- ... yet isAuthenticated is still false, contradicting the claim
        isAuthenticated (restart stT) = false)) := by
  decide

/-- C4.  The claim: the codec round-trips, `decode(encode(p)) == p` for every
valid payload (structured objects and strings alike), within the expiry
window.  The code violates this: `descriptografar` destructures
`resultado.split(':')` into `[timestamp, dados]`, so `dados` is only the
single field between the first and second colon — every payload containing a
`':'` (in particular the JSON serialization of any nonempty object, such as
the session records this codec is used for) is truncated at its first
colon.  This theorem evaluates the code at the failing input `"a:b"`
(encoded and decoded at the same instant, so expiry plays no role). -/
theorem c4_roundtrip_failure :
    criptografar "a:b" 1700000000000 =
      some "=UjMwIzbyBVe0lGbpRXV9kUbPhGcE10dBRUT3FERNdXQE10djRVT" ∧
    descriptografar "=UjMwIzbyBVe0lGbpRXV9kUbPhGcE10dBRUT3FERNdXQE10djRVT"
      1700000000000 = .str "a" ∧
    DecodeResult.str "a" ≠ DecodeResult.str "a:b" := by
  refine ⟨by decide, by decide, by decide⟩

/-- C5 counterexample.  The claim asserts (i) a malformed embedded timestamp
yields the null result and (ii) changing any single byte of an encoded token
never yields a successful decode to a valid payload different from the
original.  Both fail at concrete inputs:
* `criptografar "hi"` produces the token `pre ++ "T" ++ suf` below; changing
  that single `'T'` to `'D'` decodes successfully to `"hh" ≠ "hi"` (the flip
  lands in the data region of the inner base64 layer, which the
  `chaveBase`-suffix check does not cover);
* the well-formed wrapper around inner payload `"abc:hello"` has the
  non-numeric timestamp field `"abc"`, yet decodes to `"hello"` rather than
  null, because `Date.now() - parseInt("abc")` is `NaN` and `NaN > 30 days`
  is false, so the expiry throw is skipped. -/
theorem c5_counterexample :
    criptografar "hi" 1700000000000 =
      some ("=UjMwIzbyBVe0lGbpRXV90" ++ "T" ++ "Uh9GcE10dBRUT3FERNdXQE10djRVT") ∧
    descriptografar ("=UjMwIzbyBVe0lGbpRXV90" ++ "D" ++ "Uh9GcE10dBRUT3FERNdXQE10djRVT")
      1700000000000 = .str "hh" ∧
    DecodeResult.str "hh" ≠ DecodeResult.str "hi" ∧
    DecodeResult.str "hh" ≠ DecodeResult.nullv ∧
    parseIntJS "abc" = none ∧
    embaralhar "=UjMwIzbyBVe0lGbpRXV2h3RixGat9kaKdVW" =
      (btoa ((btoa "abc:hello").getD "" ++ chaveBase)).getD "" ∧
    descriptografar "=UjMwIzbyBVe0lGbpRXV2h3RixGat9kaKdVW" 1700000000000 =
      .str "hello" := by
  refine ⟨by decide, by decide, by decide, by decide, by decide, by decide, by decide⟩

/-- C5 (amended).  What does hold of `descriptografar`'s fail-closed policy:
for every input, if the outer base64 parse fails, or the integrity marker is
missing at the end of the outer plaintext, or the inner base64 parse fails,
the result is the null value. -/
theorem c5_fail_closed (token : String) (now : Nat) :
    (atob (embaralhar token) = none → descriptografar token now = .nullv) ∧
    (∀ r1, atob (embaralhar token) = some r1 → strEndsWith r1 chaveBase = false →
       descriptografar token now = .nullv) ∧
    (∀ r1, atob (embaralhar token) = some r1 → strEndsWith r1 chaveBase = true →
       atob ⟨r1.data.take (r1.data.length - chaveBase.data.length)⟩ = none →
       descriptografar token now = .nullv) := by
  refine ⟨fun h => ?_, fun r1 h hk => ?_, fun r1 h hk hi => ?_⟩
  · unfold descriptografar
    rw [h]
  · unfold descriptografar
    rw [h]
    simp [hk]
  · unfold descriptografar
    rw [h]
    have hi2 : atob { data := List.take (r1.length - chaveBase.length) r1.data } = none := hi
    simp [hk, hi2]

/-- Witness for C5 (amended): `"!"` is not valid base64 (and a lone
character is not either), so decoding it yields null. -/
theorem c5_fail_closed_witness : descriptografar "!" 0 = .nullv :=
  (c5_fail_closed "!" 0).1 (by decide)

/-- C6.  Brute-force lockout, confirmed: from a fresh `AuthCore` state, three
consecutive `processarLogin` calls rejected for bad credentials saturate the
counter (`tentativasLogin = 3 = maxTentativas`), and every fourth call — with
any credentials, in particular correct ones — is rejected with the
account-locked error, leaves the state untouched, and returns the same
rejection whatever the contents of the credential store (so
`validarCredenciais` is not consulted). -/
theorem c6_lockout (st0 : AuthState)
    (h0 : st0.tentativasLogin = 0) (hm : st0.maxTentativas = 3)
    (e1 p1 : String) (l1 : Bool) (t1 : Nat) (d1 : String)
    (e2 p2 : String) (l2 : Bool) (t2 : Nat) (d2 : String)
    (e3 p3 : String) (l3 : Bool) (t3 : Nat) (d3 : String)
    (h1 : (processarLogin st0 e1 p1 l1 t1 d1).2 = .credenciaisInvalidas)
    (h2 : (processarLogin (processarLogin st0 e1 p1 l1 t1 d1).1
            e2 p2 l2 t2 d2).2 = .credenciaisInvalidas)
    (h3 : (processarLogin (processarLogin (processarLogin st0 e1 p1 l1 t1 d1).1
            e2 p2 l2 t2 d2).1 e3 p3 l3 t3 d3).2 = .credenciaisInvalidas) :
    ((processarLogin (processarLogin (processarLogin st0 e1 p1 l1 t1 d1).1
        e2 p2 l2 t2 d2).1 e3 p3 l3 t3 d3).1 |> fun st3 =>
      st3.tentativasLogin = 3 ∧
      ∀ e p l t d, processarLogin st3 e p l t d = (st3, .contaBloqueada) ∧
        ∀ usuarios', (processarLogin { st3 with usuarios := usuarios' }
          e p l t d).2 = .contaBloqueada) := by
  have s1 := processarLogin_cred_fail st0 e1 p1 l1 t1 d1 h1
  have s2 := processarLogin_cred_fail _ e2 p2 l2 t2 d2 h2
  have s3 := processarLogin_cred_fail _ e3 p3 l3 t3 d3 h3
  have ht3 : (processarLogin (processarLogin (processarLogin st0 e1 p1 l1 t1 d1).1
      e2 p2 l2 t2 d2).1 e3 p3 l3 t3 d3).1.tentativasLogin = 3 := by
    rw [s3.1, s2.1, s1.1]
    simp [h0]
  have hmax3 : (processarLogin (processarLogin (processarLogin st0 e1 p1 l1 t1 d1).1
      e2 p2 l2 t2 d2).1 e3 p3 l3 t3 d3).1.maxTentativas = 3 := by
    rw [s3.1, s2.1, s1.1]
    simp [hm]
  refine ⟨ht3, fun e p l t d => ⟨?_, fun usuarios' => ?_⟩⟩
  · exact processarLogin_locked _ e p l t d (by rw [ht3, hmax3])
  · rw [processarLogin_locked _ e p l t d (by simp [ht3, hmax3])]

/-- Witness for C6: the spec's lockout scenario run concretely — three wrong
passwords for the demo admin account, then the fourth call with the correct
password is still rejected with the account-locked error. -/
theorem c6_lockout_witness :
    (processarLogin (processarLogin (processarLogin (processarLogin
      (freshState usuariosPadrao)
      "admin@promptpro.com" "wrong" false 1 "s1").1
      "admin@promptpro.com" "wrong" false 2 "s2").1
      "admin@promptpro.com" "wrong" false 3 "s3").1
      "admin@promptpro.com" "admin123" false 4 "s4").2 = .contaBloqueada := by
  have h := c6_lockout (freshState usuariosPadrao) rfl rfl
    "admin@promptpro.com" "wrong" false 1 "s1"
    "admin@promptpro.com" "wrong" false 2 "s2"
    "admin@promptpro.com" "wrong" false 3 "s3"
    (by decide) (by decide) (by decide)
  rw [(h.2 "admin@promptpro.com" "admin123" false 4 "s4").1]

/-- C7 counterexample.  The claim states session validity is
`now - lastActivityAt < sessionTimeout`; the source's `_isSessionValid`
computes `sessionAge = now - loginTime` instead.  A record logged in at
epoch 0 whose last activity is the current instant (25 hours later) is
valid under the claim's reading but invalid under the code. -/
theorem c7_counterexample :
    (({ loginTime := some 0, lastActivity := some 90000000 } : SMUserData)
      |> fun u =>
      isSessionValidSpec (some u) 90000000 = true ∧
      isSessionValid (some u) 90000000 = false) := by
  decide

/-- C7 (amended).  `_isSessionValid` is true iff the record exists, carries a
`loginTime`, and `now - loginTime < sessionTimeout` (the fixed 24-hour
policy constant) — i.e. the source checks the absolute login instant, not
the last-activity instant. -/
theorem c7_session_validity (userData : Option SMUserData) (now : Int) :
    isSessionValid userData now = true ↔
      ∃ u lt, userData = some u ∧ u.loginTime = some lt ∧
        now - lt < sessionTimeout := by
  cases userData with
  | none => simp [isSessionValid]
  | some u =>
    cases hlt : u.loginTime with
    | none => simp [isSessionValid, hlt]
    | some lt => simp [isSessionValid, hlt]

/-- C8 counterexample.  The claim: every call with a structurally invalid
identifier fails with the invalid-format reason (before the counter or the
store is touched).  The code checks the lockout guard first: in a locked
state — here reached by three wrong-password attempts — the call with the
invalid identifier `"bad"` is rejected with the account-locked error, not
the invalid-format one (the counter is indeed unchanged). -/
theorem c8_counterexample :
    ((processarLogin (processarLogin (processarLogin (freshState usuariosPadrao)
      "demo@promptpro.com" "x" false 1 "a").1
      "demo@promptpro.com" "x" false 2 "b").1
      "demo@promptpro.com" "x" false 3 "c").1 |> fun st3 =>
      emailRegexTest "bad" = false ∧
      (processarLogin st3 "bad" "x" false 4 "d").2 = .contaBloqueada ∧
      (processarLogin st3 "bad" "x" false 4 "d").2 ≠ .emailInvalido ∧
      (processarLogin st3 "bad" "x" false 4 "d").1.tentativasLogin =
        st3.tentativasLogin) := by
  decide

/-- C8 (amended).  For every call with a structurally invalid identifier:
when the account is not locked (`tentativasLogin < maxTentativas`) the call
fails with the invalid-format reason and the state — in particular the
attempt counter — is untouched; in every case (locked or not) the counter is
unchanged and the credential store is not consulted (the outcome is the same
for every store contents). -/
theorem c8_format_check (st : AuthState) (email senha : String) (l : Bool)
    (t : Nat) (d : String) (hfmt : emailRegexTest email = false) :
    (st.tentativasLogin < st.maxTentativas →
       processarLogin st email senha l t d = (st, .emailInvalido)) ∧
    (processarLogin st email senha l t d).1.tentativasLogin =
      st.tentativasLogin ∧
    (∀ usuarios', (processarLogin { st with usuarios := usuarios' }
       email senha l t d).2 = (processarLogin st email senha l t d).2) := by
  by_cases hb : st.tentativasLogin ≥ st.maxTentativas
  · rw [processarLogin_locked st email senha l t d hb]
    refine ⟨fun hlt => absurd hb (Nat.not_le_of_lt hlt), rfl, fun usuarios' => ?_⟩
    rw [processarLogin_locked { st with usuarios := usuarios' } email senha l t d hb]
  · have hlt : st.tentativasLogin < st.maxTentativas := Nat.lt_of_not_le hb
    have heq : processarLogin st email senha l t d = (st, .emailInvalido) := by
      unfold processarLogin
      simp [if_neg hb, hfmt]
    refine ⟨fun _ => heq, by rw [heq], fun usuarios' => ?_⟩
    have heq2 : processarLogin { st with usuarios := usuarios' }
        email senha l t d = ({ st with usuarios := usuarios' }, .emailInvalido) := by
      unfold processarLogin
      simp [if_neg hb, hfmt]
    rw [heq, heq2]

/-- Witness for C8 (amended): a fresh instance rejects the malformed
identifier `"no-at-sign"` with the invalid-format error, untouched state. -/
theorem c8_format_check_witness :
    processarLogin (freshState usuariosPadrao) "no-at-sign" "x" false 0 "s" =
      (freshState usuariosPadrao, .emailInvalido) :=
  (c8_format_check (freshState usuariosPadrao) "no-at-sign" "x" false 0 "s"
    (by decide)).1 (by decide)

/-! ## Sequences of login calls (for the counter invariant) -/

/-- The arguments of one `processarLogin` call (credentials, the remember
flag, and the ambient clock / generated session id of that call). -/
structure LoginCall where
  email : String
  senha : String
  lembrar : Bool
  now : Nat
  sid : String

/-- Run a sequence of `processarLogin` calls, threading the state. -/
def runLogins (st : AuthState) (calls : List LoginCall) : AuthState :=
  calls.foldl
    (fun s c => (processarLogin s c.email c.senha c.lembrar c.now c.sid).1) st

/-- `processarLogin` preserves the invariant used for C9: the counter stays
within the configured maximum and the maximum itself is never changed. -/
theorem runLogins_invariant (calls : List LoginCall) (st : AuthState)
    (h : st.tentativasLogin ≤ st.maxTentativas) :
    (runLogins st calls).tentativasLogin ≤ (runLogins st calls).maxTentativas ∧
    (runLogins st calls).maxTentativas = st.maxTentativas := by
  induction calls generalizing st with
  | nil => exact ⟨h, rfl⟩
  | cons c cs ih =>
    have hstep :
        runLogins st (c :: cs) =
          runLogins (processarLogin st c.email c.senha c.lembrar c.now c.sid).1 cs := by
      simp [runLogins]
    have hmax := (processarLogin_preserves st c.email c.senha c.lembrar c.now c.sid).2.1
    have hle := processarLogin_counter_le st c.email c.senha c.lembrar c.now c.sid h
    have := ih (processarLogin st c.email c.senha c.lembrar c.now c.sid).1
      (by rw [hmax]; exact hle)
    rw [hstep]
    exact ⟨this.1, by rw [this.2, hmax]⟩

/-- C9.  AttemptCounter invariant, confirmed: in every state reachable from a
fresh `AuthService` instance by any sequence of `processarLogin` calls,
`0 ≤ tentativasLogin ≤ maxTentativas = 3` holds, and any successful login
resets `tentativasLogin` to 0. -/
theorem c9_counter_invariant (usuarios : List Usuario) (calls : List LoginCall) :
    0 ≤ (runLogins (freshState usuarios) calls).tentativasLogin ∧
    (runLogins (freshState usuarios) calls).tentativasLogin ≤ 3 ∧
    (∀ st e p l t d u, (processarLogin st e p l t d).2 = .success u →
       (processarLogin st e p l t d).1.tentativasLogin = 0) := by
  have h := runLogins_invariant calls (freshState usuarios) (by simp [freshState])
  refine ⟨Nat.zero_le _, ?_, fun st e p l t d u hs =>
    processarLogin_success_counter st e p l t d u hs⟩
  have hm : (runLogins (freshState usuarios) calls).maxTentativas = 3 := h.2
  rw [← hm]
  exact h.1

/-- Witness for C9: a concrete two-call run (one wrong password, then a
successful login) ends with the counter at 0 ≤ 3, and the successful call
reset it. -/
theorem c9_witness :
    (runLogins (freshState usuariosPadrao)
      [{ email := "demo@promptpro.com", senha := "nope", lembrar := false, now := 1, sid := "a" },
       { email := "demo@promptpro.com", senha := "demo123", lembrar := true, now := 2, sid := "b" }]
      ).tentativasLogin ≤ 3 ∧
    (processarLogin (freshState usuariosPadrao)
      "demo@promptpro.com" "demo123" true 2 "b").1.tentativasLogin = 0 :=
  ⟨(c9_counter_invariant usuariosPadrao _).2.1,
   (c9_counter_invariant usuariosPadrao []).2.2 (freshState usuariosPadrao)
     "demo@promptpro.com" "demo123" true 2 "b"
     { id := 2, email := "demo@promptpro.com", senha := "demo123", role := "user" }
     (by decide)⟩

/-- A remembered non-admin session record used by the Router scenarios. -/
def sdDemo : SessionData :=
  { id := 2, email := "demo@promptpro.com", senha := "demo123",
    role := "user", loginTime := 5, sessionId := "s" }

/-- C10 counterexample.  The claim says the route authorization check
performs no writes to either storage tier.  The `/admin.html` route's
`beforeEnter` calls `AuthService.getCurrentUser()`, whose remember-me
fallback writes the remembered record into `sessionStorage[sessionKey]`
(read-repair): starting from a state whose ephemeral tier is empty but whose
durable remember slot holds a non-admin record, the admin check denies
access *and* mutates the state by writing the ephemeral tier. -/
theorem c10_counterexample :
    (({ freshState usuariosPadrao with localRemember := some sdDemo })
      |> fun st =>
      (adminBeforeEnter st).2 = false ∧
      st.sessionStore = none ∧
      (adminBeforeEnter st).1.sessionStore = some sdDemo ∧
      (adminBeforeEnter st).1 ≠ st) := by
  decide

/-- C10 (amended).  What does hold of the route authorization check: for
every route with `requireAuth`, access is denied whenever no session record
sits under the durable-tier session key (the slot the effective
`isAuthenticated` reads, empty in particular whenever `setSession` has never
run); for the admin route, access is additionally denied whenever the
record `getCurrentUser` yields is absent or has a role other than `'admin'`;
`checkAuth` itself performs no storage writes (it is a pure function of the
state), but the admin role check may write the remembered record into the
ephemeral tier, while never touching the two durable-tier slots. -/
theorem c10_guard (st : AuthState) (route : Route) :
    (route.requireAuth = true → st.localSession = none →
       checkAuth route st = false) ∧
    ((getCurrentUser st).2 = none → (adminBeforeEnter st).2 = false) ∧
    (∀ sd, (getCurrentUser st).2 = some sd → sd.role ≠ "admin" →
       (adminBeforeEnter st).2 = false) ∧
    (adminBeforeEnter st).1.localSession = st.localSession ∧
    (adminBeforeEnter st).1.localRemember = st.localRemember := by
  refine ⟨fun hra hls => ?_, fun hcu => ?_, fun sd hcu hrole => ?_, ?_, ?_⟩
  · have hia : isAuthenticated st = false := by
      simp [isAuthenticated, getSession, hls]
    simp [checkAuth, hia, hra]
  · simp [adminBeforeEnter, hcu]
  · simp [adminBeforeEnter, hcu, hrole]
  · unfold adminBeforeEnter getCurrentUser
    cases st.sessionStore <;> cases hr : st.localRemember <;> simp_all
  · unfold adminBeforeEnter getCurrentUser
    cases st.sessionStore <;> cases hr : st.localRemember <;> simp_all

/-- Witness for C10 (amended): with empty storage, the auth-requiring route
is denied, and the admin hook denies the non-admin demo record. -/
theorem c10_guard_witness :
    checkAuth { requireAuth := true, redirectIfAuth := false }
      (freshState usuariosPadrao) = false ∧
    (adminBeforeEnter
      { freshState usuariosPadrao with sessionStore := some sdDemo }).2 = false :=
  ⟨(c10_guard (freshState usuariosPadrao)
      { requireAuth := true, redirectIfAuth := false }).1 rfl rfl,
   (c10_guard { freshState usuariosPadrao with sessionStore := some sdDemo }
      { requireAuth := true, redirectIfAuth := false }).2.2.1
     sdDemo rfl (by decide)⟩

/-- Witness for C7 (amended): a record logged in at epoch 0 is valid at
time 5 ms. -/
theorem c7_session_validity_witness :
    isSessionValid (some { loginTime := some 0, lastActivity := some 0 }) 5 = true :=
  (c7_session_validity (some { loginTime := some 0, lastActivity := some 0 }) 5).mpr
    ⟨{ loginTime := some 0, lastActivity := some 0 }, 0, rfl, rfl, by decide⟩
